import Mathlib

/-!
Shallow embedding of the admission → enrollment → semester progression
lifecycle core of the CMS backend (controllers: admission, semester,
student, studentSubject). Entities are records, the store is a record of
lists, dates are abstract instants (`Nat`), and every controller action
is a function `DB → args → Except AppErr DB` mirroring the source's
check-then-write structure. Audit-log writes are external fire-and-forget
side effects and are not part of the store.
-/

namespace CMS

/-- Student.status enum. -/
inductive StudentStatus
  | ACTIVE | SUSPENDED | PASSED_OUT | ALUMNI | DROPOUT
  deriving DecidableEq

/-- Admission.status enum. -/
inductive AdmissionStatus
  | INITIATED | PAYMENT_PENDING | CONFIRMED | CANCELLED
  deriving DecidableEq

/-- StudentSemester.status enum. -/
inductive SemStatus
  | ONGOING | COMPLETED | FAILED | PROMOTED
  deriving DecidableEq

/-- Subject.type enum. -/
inductive SubjectType
  | MJC | MIC | MDC | SEC | VAC
  deriving DecidableEq

/-- Authenticated principal roles. -/
inductive Role
  | ADMIN | HOD | ACCOUNTANT | STUDENT
  deriving DecidableEq

structure Student where
  id : Nat
  courseId : Nat
  sessionId : Nat
  status : StudentStatus
  deriving DecidableEq

structure Semester where
  id : Nat
  courseId : Nat
  number : Nat
  deriving DecidableEq

structure Subject where
  id : Nat
  semesterId : Nat
  type : SubjectType
  deriving DecidableEq

structure Admission where
  id : Nat
  studentId : Nat
  courseId : Nat
  status : AdmissionStatus
  deriving DecidableEq

structure AdmissionHistory where
  admissionId : Nat
  fromStatus : AdmissionStatus
  toStatus : AdmissionStatus
  changedById : Nat
  notes : Option String
  deriving DecidableEq

structure StudentSemester where
  studentId : Nat
  semesterId : Nat
  status : SemStatus
  feePaid : Bool
  startDate : Nat
  endDate : Option Nat
  deriving DecidableEq

structure StudentSubject where
  studentId : Nat
  subjectId : Nat
  semesterId : Nat
  deriving DecidableEq

/-- The entity store. -/
structure DB where
  students : List Student
  semesters : List Semester
  subjects : List Subject
  admissions : List Admission
  admissionHistories : List AdmissionHistory
  studentSemesters : List StudentSemester
  studentSubjects : List StudentSubject
  deriving DecidableEq

/-- `AppError(message, httpCode)` of the source. -/
structure AppErr where
  message : String
  code : Nat
  deriving DecidableEq

/-- Store with its StudentSemester table replaced. -/
def withSS (db : DB) (l : List StudentSemester) : DB :=
  { db with studentSemesters := l }

/-- `new Date(d).setMonth(getMonth() + m)`: dates are abstract instants,
months abstract increments. -/
def addMonths (d m : Nat) : Nat := d + m

/-- The `validTransitions` table of `updateAdmissionStatus`
(admission.controller.js). -/
def validTransitions : AdmissionStatus → List AdmissionStatus
  | .INITIATED => [.PAYMENT_PENDING, .CANCELLED]
  | .PAYMENT_PENDING => [.CONFIRMED, .CANCELLED]
  | .CONFIRMED => []
  | .CANCELLED => []

def statusName : AdmissionStatus → String
  | .INITIATED => "INITIATED"
  | .PAYMENT_PENDING => "PAYMENT_PENDING"
  | .CONFIRMED => "CONFIRMED"
  | .CANCELLED => "CANCELLED"

def typeName : SubjectType → String
  | .MJC => "MJC"
  | .MIC => "MIC"
  | .MDC => "MDC"
  | .SEC => "SEC"
  | .VAC => "VAC"

/-- Step 1 of the CONFIRMED cascade: if a student record exists and is
not yet ACTIVE, set it to ACTIVE (no-op when absent or already ACTIVE). -/
def activateStudent (db : DB) (adm : Admission) : DB :=
  match db.students.find? (fun s => decide (s.id = adm.studentId)) with
  | none => db
  | some st =>
    if st.status = StudentStatus.ACTIVE then db
    else { db with students := db.students.map (fun s =>
        if s.id = adm.studentId then { s with status := StudentStatus.ACTIVE } else s) }

/-- The enrollment cascade run by `updateAdmissionStatus` when the target
status is CONFIRMED: activate the student if a record exists, then
auto-assign semester 1 of the admission's course unless the student is
already assigned to it or already has an ONGOING semester. -/
def confirmedCascade (db : DB) (now : Nat) (adm : Admission) : DB :=
  let db1 : DB := activateStudent db adm
  match db1.semesters.find? (fun s => decide (s.courseId = adm.courseId ∧ s.number = 1)) with
  | none => db1
  | some sem1 =>
    let existingAssignment := db1.studentSemesters.find? (fun ss =>
      decide (ss.studentId = adm.studentId ∧ ss.semesterId = sem1.id))
    let ongoing := db1.studentSemesters.find? (fun ss =>
      decide (ss.studentId = adm.studentId ∧ ss.status = SemStatus.ONGOING))
    if existingAssignment = none ∧ ongoing = none then
      { db1 with studentSemesters := db1.studentSemesters ++
          [⟨adm.studentId, sem1.id, SemStatus.ONGOING, false, now, none⟩] }
    else db1

/-- `updateAdmissionStatus` (admission.controller.js lines 252-440):
look up the admission, enforce the transition table, persist the new
status together with one AdmissionHistory row, and on CONFIRMED run the
enrollment cascade. -/
def updateAdmissionStatus (db : DB) (now userId id : Nat)
    (status : AdmissionStatus) (notes : Option String) : Except AppErr DB :=
  match db.admissions.find? (fun a => decide (a.id = id)) with
  | none => .error ⟨"Admission not found", 404⟩
  | some admission =>
    if status ∉ validTransitions admission.status then
      .error ⟨"Invalid status transition from " ++ statusName admission.status
        ++ " to " ++ statusName status, 400⟩
    else if admission.status = AdmissionStatus.CANCELLED then
      .error ⟨"Cancelled admissions cannot be modified", 400⟩
    else
      let db1 := { db with
        admissions := db.admissions.map (fun a =>
          if a.id = id then { a with status := status } else a),
        admissionHistories := db.admissionHistories ++
          [⟨id, admission.status, status, userId, notes⟩] }
      .ok (if status = AdmissionStatus.CONFIRMED then confirmedCascade db1 now admission else db1)

/-- `assignSemester` (student controller): direct assignment of a semester
to a student.  Note the ongoing-semester guard only fires when the new
start date is not after the ongoing row's start date. -/
def assignSemester (db : DB) (studentId semesterId : Nat)
    (startDate : Nat) (endDate : Option Nat) : Except AppErr DB :=
  match db.students.find? (fun s => decide (s.id = studentId)) with
  | none => .error ⟨"Student not found", 404⟩
  | some student =>
  match db.semesters.find? (fun s => decide (s.id = semesterId)) with
  | none => .error ⟨"Semester not found", 404⟩
  | some semester =>
  if semester.courseId ≠ student.courseId then
    .error ⟨"Semester does not belong to student\x27s course", 400⟩
  else
  match db.studentSemesters.find? (fun ss =>
      decide (ss.studentId = studentId ∧ ss.semesterId = semesterId)) with
  | some _ => .error ⟨"Student is already assigned to this semester", 400⟩
  | none =>
  match db.studentSemesters.find? (fun ss =>
      decide (ss.studentId = studentId ∧ ss.status = SemStatus.ONGOING)) with
  | some og =>
    if startDate ≤ og.startDate then
      .error ⟨"Student already has an ongoing semester. Cannot assign earlier semester.", 400⟩
    else
      .ok { db with studentSemesters := db.studentSemesters ++
        [⟨studentId, semesterId, SemStatus.ONGOING, false, startDate, endDate⟩] }
  | none =>
    .ok { db with studentSemesters := db.studentSemesters ++
      [⟨studentId, semesterId, SemStatus.ONGOING, false, startDate, endDate⟩] }

/-- The field update applied to a matched StudentSemester row
(`status: status || old, feePaid: feePaid !== undefined ? feePaid : old`). -/
def setRow (status : Option SemStatus) (feePaid : Option Bool)
    (ss : StudentSemester) : StudentSemester :=
  { ss with status := status.getD ss.status, feePaid := feePaid.getD ss.feePaid }

/-- `prisma.studentSemester.update` on the unique (studentId, semesterId)
key, modelled as a map over the matching rows. -/
def updateMatching (sid semId : Nat) (status : Option SemStatus)
    (feePaid : Option Bool) (l : List StudentSemester) : List StudentSemester :=
  l.map (fun ss => if ss.studentId = sid ∧ ss.semesterId = semId then setRow status feePaid ss else ss)

/-- `updateStudentSemesterStatus` (student controller lines 531-705): the
unit-level status update with the COMPLETED promotion / PASSED_OUT
cascade and the FAILED no-cascade branch. -/
def updateStudentSemesterStatus (db : DB) (now studentId semesterId : Nat)
    (status : Option SemStatus) (feePaid : Option Bool) : Except AppErr DB :=
  match db.studentSemesters.find? (fun ss =>
      decide (ss.studentId = studentId ∧ ss.semesterId = semesterId)) with
  | none => .error ⟨"Student semester assignment not found", 404⟩
  | some _ =>
    let l1 := updateMatching studentId semesterId status feePaid db.studentSemesters
    let db1 : DB := { db with studentSemesters := l1 }
    let currentSemester := db1.semesters.find? (fun s => decide (s.id = semesterId))
    if status = some SemStatus.COMPLETED then
      match currentSemester with
      | none => .ok db1
      | some cur =>
        match db1.semesters.find? (fun s =>
            decide (s.courseId = cur.courseId ∧ s.number = cur.number + 1)) with
        | some next =>
          match db1.studentSemesters.find? (fun ss =>
              decide (ss.studentId = studentId ∧ ss.semesterId = next.id)) with
          | some _ => .ok db1
          | none => .ok { db1 with studentSemesters := db1.studentSemesters ++
              [⟨studentId, next.id, SemStatus.ONGOING, false, now, none⟩] }
        | none =>
          .ok { db1 with students := db1.students.map (fun s =>
            if s.id = studentId then { s with status := StudentStatus.PASSED_OUT } else s) }
    else .ok db1

/-- One step of the bulk promotion loop: create the next-semester row for
one completed record unless it already exists. -/
def bulkPromoteStep (now nextId : Nat) (acc : DB) (r : StudentSemester) : DB :=
  match acc.studentSemesters.find? (fun ss =>
      decide (ss.studentId = r.studentId ∧ ss.semesterId = nextId)) with
  | some _ => acc
  | none => { acc with studentSemesters := acc.studentSemesters ++
      [⟨r.studentId, nextId, SemStatus.ONGOING, false, now, none⟩] }

/-- `bulkUpdateStudentSemesterStatus` (semester.controller.js lines
445-599): updateMany per student id over the one semester, then — when
the new status is COMPLETED and a next semester exists — the per-record
promotion loop.  There is no PASSED_OUT branch on this path. -/
def bulkUpdateStudentSemesterStatus (db : DB) (now id : Nat)
    (studentIds : List Nat) (status : Option SemStatus) (feePaid : Option Bool) :
    Except AppErr DB :=
  if studentIds.isEmpty then .error ⟨"Student IDs array is required", 400⟩
  else
  match db.semesters.find? (fun s => decide (s.id = id)) with
  | none => .error ⟨"Semester not found", 404⟩
  | some _ =>
    let db1 : DB := { db with studentSemesters := db.studentSemesters.map (fun ss =>
      if ss.studentId ∈ studentIds ∧ ss.semesterId = id then setRow status feePaid ss else ss) }
    let updatedRecords := db1.studentSemesters.filter (fun ss =>
      decide (ss.studentId ∈ studentIds ∧ ss.semesterId = id))
    if status = some SemStatus.COMPLETED then
      match db1.semesters.find? (fun s => decide (s.id = id)) with
      | none => .ok db1
      | some cur =>
        match db1.semesters.find? (fun s =>
            decide (s.courseId = cur.courseId ∧ s.number = cur.number + 1)) with
        | none => .ok db1
        | some next => .ok (updatedRecords.foldl (bulkPromoteStep now next.id) db1)
    else .ok db1

/-- Optional eligibility criteria of `autoAssignStudents`. -/
structure Criteria where
  sessionId : Option Nat
  minSemesterNumber : Option Nat
  deriving DecidableEq

/-- The prisma `where` clause of `autoAssignStudents`: course membership,
ACTIVE status, and the optional sessionId / minSemesterNumber criteria. -/
def autoAssignBaseFilter (db : DB) (semester : Semester) (criteria : Option Criteria)
    (st : Student) : Bool :=
  decide (st.courseId = semester.courseId) && decide (st.status = StudentStatus.ACTIVE) &&
  (match criteria with
   | none => true
   | some c =>
     (match c.sessionId with
      | none => true
      | some sid => decide (st.sessionId = sid)) &&
     (match c.minSemesterNumber with
      | none => true
      | some m => db.studentSemesters.any (fun ss =>
          decide (ss.studentId = st.id ∧ ss.status = SemStatus.COMPLETED) &&
          db.semesters.any (fun sem => decide (sem.id = ss.semesterId ∧ sem.number ≤ m)))))

/-- The in-memory eligibility filter of `autoAssignStudents`: not already
assigned, no ongoing semester, and for semesters beyond the first a
COMPLETED row for the previous semester number. -/
def autoAssignEligibleFilter (db : DB) (semester : Semester) (id : Nat)
    (st : Student) : Bool :=
  !(db.studentSemesters.any (fun ss =>
      decide (ss.studentId = st.id ∧ ss.semesterId = id))) &&
  !(db.studentSemesters.any (fun ss =>
      decide (ss.studentId = st.id ∧ ss.status = SemStatus.ONGOING))) &&
  (decide (semester.number = 1) ||
    db.studentSemesters.any (fun ss =>
      decide (ss.studentId = st.id ∧ ss.status = SemStatus.COMPLETED) &&
      db.semesters.any (fun sem =>
        decide (sem.id = ss.semesterId ∧ sem.number = semester.number - 1))))

/-- `autoAssignStudents` (semester.controller.js lines 140-300): select
eligible students and batch-create ONGOING rows with a six-month default
duration. -/
def autoAssignStudents (db : DB) (now id : Nat) (criteria : Option Criteria) :
    Except AppErr DB :=
  match db.semesters.find? (fun s => decide (s.id = id)) with
  | none => .error ⟨"Semester not found", 404⟩
  | some semester =>
    let eligibleStudents :=
      (db.students.filter (autoAssignBaseFilter db semester criteria)).filter
        (autoAssignEligibleFilter db semester id)
    .ok { db with studentSemesters := db.studentSemesters ++
      eligibleStudents.map (fun st =>
        ⟨st.id, id, SemStatus.ONGOING, false, now, some (addMonths now 6)⟩) }

/-- `createStudentSubject` (studentSubject controller lines 14-164):
subject selection with existence, alignment, enrollment, duplicate and
exclusive-type checks. -/
def createStudentSubject (db : DB) (actorRole : Role) (actorId : Nat)
    (studentId subjectId semesterId : Nat) : Except AppErr DB :=
  if actorRole = Role.STUDENT ∧ actorId ≠ studentId then
    .error ⟨"You can only select subjects for yourself", 403⟩
  else
  match db.students.find? (fun s => decide (s.id = studentId)) with
  | none => .error ⟨"Student not found", 404⟩
  | some student =>
  match db.subjects.find? (fun s => decide (s.id = subjectId)) with
  | none => .error ⟨"Subject not found", 404⟩
  | some subject =>
  match db.semesters.find? (fun s => decide (s.id = semesterId)) with
  | none => .error ⟨"Semester not found", 404⟩
  | some semester =>
  if subject.semesterId ≠ semesterId then
    .error ⟨"Subject does not belong to the specified semester", 400⟩
  else if semester.courseId ≠ student.courseId then
    .error ⟨"Semester does not belong to student\x27s course", 400⟩
  else
  match db.studentSemesters.find? (fun ss =>
      decide (ss.studentId = studentId ∧ ss.semesterId = semesterId)) with
  | none => .error ⟨"Student is not enrolled in this semester", 400⟩
  | some _ =>
  match db.studentSubjects.find? (fun r =>
      decide (r.studentId = studentId ∧ r.subjectId = subjectId ∧ r.semesterId = semesterId)) with
  | some _ => .error ⟨"Student is already assigned to this subject in this semester", 400⟩
  | none =>
  if subject.type = SubjectType.MJC ∨ subject.type = SubjectType.MIC ∨
      subject.type = SubjectType.MDC then
    match db.studentSubjects.find? (fun r =>
        decide (r.studentId = studentId ∧ r.semesterId = semesterId) &&
        db.subjects.any (fun sub => decide (sub.id = r.subjectId ∧ sub.type = subject.type))) with
    | some _ => .error ⟨"Student has already selected a " ++ typeName subject.type
        ++ " subject in this semester", 400⟩
    | none => .ok { db with studentSubjects := db.studentSubjects ++
        [⟨studentId, subjectId, semesterId⟩] }
  else
    .ok { db with studentSubjects := db.studentSubjects ++
      [⟨studentId, subjectId, semesterId⟩] }

/-- `bulkAssignSubjects` (studentSubject controller lines 434-549): bulk
subject selection with resolution-count, within-batch exclusive-type and
pre-existing-assignment checks, then one atomic batch create. -/
def bulkAssignSubjects (db : DB) (studentId semesterId : Nat)
    (subjectIds : List Nat) : Except AppErr DB :=
  if subjectIds.isEmpty then
    .error ⟨"Subject IDs array is required and cannot be empty", 400⟩
  else
  match db.students.find? (fun s => decide (s.id = studentId)) with
  | none => .error ⟨"Student not found", 404⟩
  | some _ =>
  match db.semesters.find? (fun s => decide (s.id = semesterId)) with
  | none => .error ⟨"Semester not found", 404⟩
  | some _ =>
  match db.studentSemesters.find? (fun ss =>
      decide (ss.studentId = studentId ∧ ss.semesterId = semesterId)) with
  | none => .error ⟨"Student is not enrolled in this semester", 400⟩
  | some _ =>
  let subjects := db.subjects.filter (fun s =>
    decide (s.id ∈ subjectIds ∧ s.semesterId = semesterId))
  if subjects.length ≠ subjectIds.length then
    .error ⟨"One or more subjects do not exist or do not belong to the specified semester", 400⟩
  else
  let subjectTypes := subjects.map Subject.type
  let mjcCount := (subjectTypes.filter (fun t => decide (t = SubjectType.MJC))).length
  let micCount := (subjectTypes.filter (fun t => decide (t = SubjectType.MIC))).length
  let mdcCount := (subjectTypes.filter (fun t => decide (t = SubjectType.MDC))).length
  if mjcCount > 1 ∨ micCount > 1 ∨ mdcCount > 1 then
    .error ⟨"Cannot assign multiple subjects of the same type (MJC, MIC, MDC) to the same semester", 400⟩
  else
  let existingAssignments := db.studentSubjects.filter (fun r =>
    decide (r.studentId = studentId ∧ r.semesterId = semesterId ∧ r.subjectId ∈ subjectIds))
  if existingAssignments.length > 0 then
    .error ⟨"One or more subjects are already assigned to this student for this semester", 400⟩
  else
  .ok { db with studentSubjects := db.studentSubjects ++
    subjectIds.map (fun sid => ⟨studentId, sid, semesterId⟩) }

/-! ### Generic lemmas about the operations -/

/-- Store with student 1 (SUSPENDED), semester 1 of course 1, and a
PAYMENT_PENDING admission (id 5) of student 1 for course 1. -/
def enrDb : DB :=
  ⟨[⟨1, 1, 0, .SUSPENDED⟩], [⟨1, 1, 1⟩], [], [⟨5, 1, 1, .PAYMENT_PENDING⟩], [], [], []⟩

/-- Store for the completion-cascade witness: course 1 with semesters 1
and 2; student 1 ONGOING in semester 1 only; student 2 ONGOING in both
semesters. -/
def c4Db : DB :=
  ⟨[⟨1, 1, 0, .ACTIVE⟩, ⟨2, 1, 0, .ACTIVE⟩], [⟨1, 1, 1⟩, ⟨2, 1, 2⟩], [], [], [],
    [⟨1, 1, .ONGOING, false, 0, none⟩, ⟨2, 1, .ONGOING, false, 0, none⟩,
     ⟨2, 2, .ONGOING, false, 0, none⟩], []⟩

/-- The new StudentSemester rows a run of auto-assignment creates: one
ONGOING row per student passing both code filters. -/
def autoAssignRows (db : DB) (sem : Semester) (criteria : Option Criteria)
    (id now : Nat) : List StudentSemester :=
  ((db.students.filter (autoAssignBaseFilter db sem criteria)).filter
    (autoAssignEligibleFilter db sem id)).map
    (fun st => ⟨st.id, id, SemStatus.ONGOING, false, now, some (addMonths now 6)⟩)

/-- The eligibility conditions of auto-assignment, stated as the spec
lists them: course membership with ACTIVE status, the optional sessionId
and minimum-completed-semester criteria, no existing assignment to this
semester, no ONGOING semester, and — beyond semester 1 — a COMPLETED row
for the previous semester number. -/
def autoAssignSpecPred (db : DB) (sem : Semester) (criteria : Option Criteria)
    (id : Nat) (st : Student) : Prop :=
  st.courseId = sem.courseId ∧ st.status = StudentStatus.ACTIVE ∧
  (∀ c, criteria = some c →
    (∀ sid, c.sessionId = some sid → st.sessionId = sid) ∧
    (∀ m, c.minSemesterNumber = some m →
      ∃ ss, ss ∈ db.studentSemesters ∧ ss.studentId = st.id ∧
        ss.status = SemStatus.COMPLETED ∧
        ∃ sm, sm ∈ db.semesters ∧ sm.id = ss.semesterId ∧ sm.number ≤ m)) ∧
  (∀ ss ∈ db.studentSemesters, ¬(ss.studentId = st.id ∧ ss.semesterId = id)) ∧
  (∀ ss ∈ db.studentSemesters, ¬(ss.studentId = st.id ∧ ss.status = SemStatus.ONGOING)) ∧
  (sem.number = 1 ∨
    ∃ ss, ss ∈ db.studentSemesters ∧ ss.studentId = st.id ∧
      ss.status = SemStatus.COMPLETED ∧
      ∃ sm, sm ∈ db.semesters ∧ sm.id = ss.semesterId ∧ sm.number = sem.number - 1)

/-- Store with semester 2 of course 1 (id 2): student 1 has completed
semester 1 and is eligible; student 2 still has semester 1 ONGOING and is
not; student 3 belongs to another course. -/
def c6Db : DB :=
  ⟨[⟨1, 1, 0, .ACTIVE⟩, ⟨2, 1, 0, .ACTIVE⟩, ⟨3, 9, 0, .ACTIVE⟩],
    [⟨1, 1, 1⟩, ⟨2, 1, 2⟩], [], [], [],
    [⟨1, 1, .COMPLETED, false, 0, none⟩, ⟨2, 1, .ONGOING, false, 0, none⟩], []⟩

/-- Store with one student ONGOING in semester 1 of a course that also
has a semester 2. -/
def c5Db : DB :=
  ⟨[⟨1, 1, 0, .ACTIVE⟩], [⟨1, 1, 1⟩, ⟨2, 1, 2⟩], [], [], [],
    [⟨1, 1, .ONGOING, false, 0, none⟩], []⟩

/-- The state both paths produce on c5Db: row completed, next-semester
row created, student untouched. -/
def c5After : DB :=
  ⟨[⟨1, 1, 0, .ACTIVE⟩], [⟨1, 1, 1⟩, ⟨2, 1, 2⟩], [], [], [],
    [⟨1, 1, .COMPLETED, false, 0, none⟩, ⟨1, 2, .ONGOING, false, 9, none⟩], []⟩

/-- Store for the amended-C7 witness: student 1 enrolled in semester 1
with status COMPLETED; subject 3 of type SEC belongs to semester 1;
semester 2 has no enrollment row. -/
def c7Db : DB :=
  ⟨[⟨1, 1, 0, .ACTIVE⟩], [⟨1, 1, 1⟩, ⟨2, 1, 2⟩], [⟨3, 1, .SEC⟩, ⟨4, 2, .SEC⟩], [], [],
    [⟨1, 1, .COMPLETED, false, 0, none⟩], []⟩

/-- Store for the exclusive-type witness: student 1 ONGOING in semester
1; subjects 10 and 11 are MJC, 12 and 13 are SEC, all in semester 1; the
student already holds subject 10 (MJC) and subject 12 (SEC). -/
def c8Db : DB :=
  ⟨[⟨1, 1, 0, .ACTIVE⟩], [⟨1, 1, 1⟩],
    [⟨10, 1, .MJC⟩, ⟨11, 1, .MJC⟩, ⟨12, 1, .SEC⟩, ⟨13, 1, .SEC⟩], [], [],
    [⟨1, 1, .ONGOING, false, 0, none⟩], [⟨1, 10, 1⟩, ⟨1, 12, 1⟩]⟩

/-- Store for the bulk-assignment witnesses: student 1 ONGOING in
semester 1; subjects 10, 11 (MJC), 12, 13 (SEC) all in semester 1; the
student already holds subject 12. -/
def c9Db : DB :=
  ⟨[⟨1, 1, 0, .ACTIVE⟩], [⟨1, 1, 1⟩],
    [⟨10, 1, .MJC⟩, ⟨11, 1, .MJC⟩, ⟨12, 1, .SEC⟩, ⟨13, 1, .SEC⟩], [], [],
    [⟨1, 1, .ONGOING, false, 0, none⟩], [⟨1, 12, 1⟩]⟩

/-- The state a successful `[13]` bulk assignment produces on `c9Db`. -/
def c9After : DB :=
  ⟨[⟨1, 1, 0, .ACTIVE⟩], [⟨1, 1, 1⟩],
    [⟨10, 1, .MJC⟩, ⟨11, 1, .MJC⟩, ⟨12, 1, .SEC⟩, ⟨13, 1, .SEC⟩], [], [],
    [⟨1, 1, .ONGOING, false, 0, none⟩], [⟨1, 12, 1⟩, ⟨1, 13, 1⟩]⟩

/-- Store for the duplicate-id witness: subjects 10 and 12 both exist in
semester 1. -/
def c10Db : DB :=
  ⟨[⟨1, 1, 0, .ACTIVE⟩], [⟨1, 1, 1⟩], [⟨10, 1, .MJC⟩, ⟨12, 1, .SEC⟩], [], [],
    [⟨1, 1, .ONGOING, false, 0, none⟩], []⟩

/-- Store with a missing admission id (7), an INITIATED admission (5)
and a PAYMENT_PENDING admission (6), used to instantiate the admission
transition contract. -/
def admDb : DB :=
  ⟨[⟨1, 1, 0, .SUSPENDED⟩], [⟨1, 1, 1⟩], [],
    [⟨5, 1, 1, .INITIATED⟩, ⟨6, 1, 1, .PAYMENT_PENDING⟩], [], [], []⟩

/-- One student (id 1, course 1) with an ONGOING row for semester 1
(start date 0); semester 2 of the same course exists. -/
def assignDb : DB :=
  ⟨[⟨1, 1, 0, .ACTIVE⟩], [⟨1, 1, 1⟩, ⟨2, 1, 2⟩], [], [], [],
    [⟨1, 1, .ONGOING, false, 0, none⟩], []⟩

/-- One student (id 1) whose only semester (number 1 of a one-semester
course) is ONGOING; there is no semester number 2. -/
def bulkDb : DB :=
  ⟨[⟨1, 1, 0, .ACTIVE⟩], [⟨1, 1, 1⟩], [], [], [],
    [⟨1, 1, .ONGOING, false, 0, none⟩], []⟩

/-- State after the unit-level COMPLETED update: row COMPLETED and the
student PASSED_OUT. -/
def bulkDbUnit : DB :=
  ⟨[⟨1, 1, 0, .PASSED_OUT⟩], [⟨1, 1, 1⟩], [], [], [],
    [⟨1, 1, .COMPLETED, false, 0, none⟩], []⟩

/-- State after the bulk COMPLETED update: row COMPLETED but the student
still ACTIVE. -/
def bulkDbBulk : DB :=
  ⟨[⟨1, 1, 0, .ACTIVE⟩], [⟨1, 1, 1⟩], [], [], [],
    [⟨1, 1, .COMPLETED, false, 0, none⟩], []⟩

/-- One student enrolled in semester 1 with status COMPLETED (not
ONGOING); subject 1 of type MJC belongs to that semester. -/
def subjDb : DB :=
  ⟨[⟨1, 1, 0, .ACTIVE⟩], [⟨1, 1, 1⟩], [⟨1, 1, .MJC⟩], [], [],
    [⟨1, 1, .COMPLETED, false, 0, none⟩], []⟩

lemma activateStudent_semesters (db : DB) (adm : Admission) :
    (activateStudent db adm).semesters = db.semesters := by
  simp only [activateStudent]
  split
  · rfl
  · split <;> rfl

lemma activateStudent_studentSemesters (db : DB) (adm : Admission) :
    (activateStudent db adm).studentSemesters = db.studentSemesters := by
  simp only [activateStudent]
  split
  · rfl
  · split <;> rfl

lemma activateStudent_admissions (db : DB) (adm : Admission) :
    (activateStudent db adm).admissions = db.admissions := by
  simp only [activateStudent]
  split
  · rfl
  · split <;> rfl

lemma activateStudent_admissionHistories (db : DB) (adm : Admission) :
    (activateStudent db adm).admissionHistories = db.admissionHistories := by
  simp only [activateStudent]
  split
  · rfl
  · split <;> rfl

lemma confirmedCascade_admissions (db : DB) (now : Nat) (adm : Admission) :
    (confirmedCascade db now adm).admissions = db.admissions := by
  have h := activateStudent_admissions db adm
  simp only [confirmedCascade]
  split
  · exact h
  · split <;> simpa using h

lemma confirmedCascade_admissionHistories (db : DB) (now : Nat) (adm : Admission) :
    (confirmedCascade db now adm).admissionHistories = db.admissionHistories := by
  have h := activateStudent_admissionHistories db adm
  simp only [confirmedCascade]
  split
  · exact h
  · split <;> simpa using h

lemma confirmedCascade_students (db : DB) (now : Nat) (adm : Admission) :
    (confirmedCascade db now adm).students = (activateStudent db adm).students := by
  simp only [confirmedCascade]
  split
  · rfl
  · split <;> rfl

/-- In a list whose `f`-projections are pairwise distinct, any element
projecting to the searched key is the one `find?` returns. -/
lemma find?_id_unique {α β : Type} [DecidableEq β] (f : α → β) (k : β) (y : α) :
    ∀ l : List α, (l.map f).Nodup →
      l.find? (fun x => decide (f x = k)) = some y →
      ∀ x ∈ l, f x = k → x = y := by
  intro l
  induction l with
  | nil => intro _ h; simp at h
  | cons a t ih =>
    intro hnd hf x hx hxk
    rw [List.map_cons, List.nodup_cons] at hnd
    by_cases ha : f a = k
    · rw [List.find?_cons_of_pos _ (by simpa using ha)] at hf
      obtain rfl : a = y := by simpa using hf
      rcases List.mem_cons.mp hx with rfl | hxt
      · rfl
      · exact absurd (by rw [ha, ← hxk]; exact List.mem_map_of_mem f hxt) hnd.1
    · rw [List.find?_cons_of_neg _ (by simpa using ha)] at hf
      rcases List.mem_cons.mp hx with rfl | hxt
      · exact absurd hxk ha
      · exact ih hnd.2 hf x hxt hxk

/-- After `activateStudent`, every student record carrying the
admission's student id is ACTIVE (given globally unique student ids). -/
lemma activateStudent_active (db : DB) (adm : Admission)
    (hNodup : (db.students.map Student.id).Nodup) :
    ∀ s ∈ (activateStudent db adm).students, s.id = adm.studentId →
      s.status = StudentStatus.ACTIVE := by
  intro s hs hsid
  unfold activateStudent at hs
  cases hf : db.students.find? (fun s => decide (s.id = adm.studentId)) with
  | none =>
    rw [hf] at hs
    dsimp only at hs
    have := List.find?_eq_none.mp hf s hs
    simp [hsid] at this
  | some st =>
    rw [hf] at hs
    dsimp only at hs
    by_cases hact : st.status = StudentStatus.ACTIVE
    · rw [if_pos hact] at hs
      have : s = st := find?_id_unique Student.id adm.studentId st db.students hNodup hf s hs hsid
      rw [this]
      exact hact
    · rw [if_neg hact] at hs
      obtain ⟨s0, hs0, rfl⟩ := List.mem_map.mp hs
      by_cases h0 : s0.id = adm.studentId
      · simp [h0]
      · simp only [if_neg h0] at hsid ⊢
        exact absurd hsid h0

/-- C2: the admission status transition contract. If the admission id
does not resolve, the operation fails with the not-found error; if the
target status is outside the allowed-transitions set of the current
status (INITIATED → PAYMENT_PENDING or CANCELLED, PAYMENT_PENDING →
CONFIRMED or CANCELLED, CONFIRMED and CANCELLED terminal), it fails with
the invalid-transition error and the store is untouched — in particular
a direct INITIATED → CONFIRMED request so fails; on an allowed
transition it persists the new status and appends exactly one
AdmissionHistory row carrying (fromStatus, toStatus, actor, notes). -/
theorem admission_transition_contract (db : DB) (now userId id : Nat)
    (target : AdmissionStatus) (notes : Option String) :
    (db.admissions.find? (fun a => decide (a.id = id)) = none →
      updateAdmissionStatus db now userId id target notes =
        .error ⟨"Admission not found", 404⟩) ∧
    (∀ adm, db.admissions.find? (fun a => decide (a.id = id)) = some adm →
      target ∉ validTransitions adm.status →
      updateAdmissionStatus db now userId id target notes =
        .error ⟨"Invalid status transition from " ++ statusName adm.status
          ++ " to " ++ statusName target, 400⟩) ∧
    (∀ adm, db.admissions.find? (fun a => decide (a.id = id)) = some adm →
      adm.status = AdmissionStatus.INITIATED → target = AdmissionStatus.CONFIRMED →
      updateAdmissionStatus db now userId id target notes =
        .error ⟨"Invalid status transition from INITIATED to CONFIRMED", 400⟩) ∧
    (∀ adm, db.admissions.find? (fun a => decide (a.id = id)) = some adm →
      target ∈ validTransitions adm.status →
      ∃ db', updateAdmissionStatus db now userId id target notes = .ok db' ∧
        db'.admissions = db.admissions.map
          (fun a => if a.id = id then { a with status := target } else a) ∧
        db'.admissionHistories = db.admissionHistories ++
          [⟨id, adm.status, target, userId, notes⟩]) := by
  refine ⟨?_, ?_, ?_, ?_⟩
  · intro h
    simp only [updateAdmissionStatus, h]
  · intro adm h hmem
    simp only [updateAdmissionStatus, h, hmem, not_false_eq_true, if_true, ite_not]
  · intro adm h hst ht
    subst ht
    simp only [updateAdmissionStatus, h, hst]
    rfl
  · intro adm h hmem
    have hnc : adm.status ≠ AdmissionStatus.CANCELLED := by
      intro hc
      rw [hc] at hmem
      simp [validTransitions] at hmem
    simp only [updateAdmissionStatus, h, if_neg (not_not_intro hmem), if_neg hnc]
    by_cases hconf : target = AdmissionStatus.CONFIRMED
    · subst hconf
      rw [if_pos rfl]
      exact ⟨_, rfl, by rw [confirmedCascade_admissions],
        by rw [confirmedCascade_admissionHistories]⟩
    · rw [if_neg hconf]
      exact ⟨_, rfl, rfl, rfl⟩

lemma confirmedCascade_create (db : DB) (now : Nat) (adm : Admission) (s1 : Semester)
    (hS1 : db.semesters.find?
      (fun s => decide (s.courseId = adm.courseId ∧ s.number = 1)) = some s1)
    (hNoRow : db.studentSemesters.find?
      (fun ss => decide (ss.studentId = adm.studentId ∧ ss.semesterId = s1.id)) = none)
    (hNoOng : db.studentSemesters.find?
      (fun ss => decide (ss.studentId = adm.studentId ∧ ss.status = SemStatus.ONGOING)) = none) :
    (confirmedCascade db now adm).studentSemesters =
      db.studentSemesters ++ [⟨adm.studentId, s1.id, SemStatus.ONGOING, false, now, none⟩] := by
  simp only [confirmedCascade, activateStudent_semesters, activateStudent_studentSemesters, hS1]
  rw [if_pos ⟨hNoRow, hNoOng⟩]

lemma confirmedCascade_skip (db : DB) (now : Nat) (adm : Admission) (s1 : Semester)
    (hS1 : db.semesters.find?
      (fun s => decide (s.courseId = adm.courseId ∧ s.number = 1)) = some s1)
    (hcond : ¬(db.studentSemesters.find?
        (fun ss => decide (ss.studentId = adm.studentId ∧ ss.semesterId = s1.id)) = none ∧
      db.studentSemesters.find?
        (fun ss => decide (ss.studentId = adm.studentId ∧ ss.status = SemStatus.ONGOING)) = none)) :
    (confirmedCascade db now adm).studentSemesters = db.studentSemesters := by
  have h2 : ¬((activateStudent db adm).studentSemesters.find?
        (fun ss => decide (ss.studentId = adm.studentId ∧ ss.semesterId = s1.id)) = none ∧
      (activateStudent db adm).studentSemesters.find?
        (fun ss => decide (ss.studentId = adm.studentId ∧ ss.status = SemStatus.ONGOING)) = none) := by
    rw [activateStudent_studentSemesters]
    exact hcond
  simp only [confirmedCascade, activateStudent_semesters, hS1, if_neg h2]
  exact activateStudent_studentSemesters db adm

lemma confirmedCascade_noSem1 (db : DB) (now : Nat) (adm : Admission)
    (hS1 : db.semesters.find?
      (fun s => decide (s.courseId = adm.courseId ∧ s.number = 1)) = none) :
    (confirmedCascade db now adm).studentSemesters = db.studentSemesters := by
  simp only [confirmedCascade, activateStudent_semesters, hS1]
  exact activateStudent_studentSemesters db adm

/-- C3: the enrollment cascade on PAYMENT_PENDING → CONFIRMED. When the
course has a semester numbered 1, the student holds no row for it and no
ONGOING row, exactly one new StudentSemester(studentId, semester1,
ONGOING, feePaid=false, startDate=now, endDate=null) is appended and
every student record with the admission's student id ends ACTIVE; when
an ONGOING or semester-1 row already exists, or no semester 1 is
defined, the operation still succeeds but creates no StudentSemester. -/
theorem enrollment_cascade_on_confirmation (db : DB) (now userId id : Nat)
    (notes : Option String) (adm : Admission)
    (hAdm : db.admissions.find? (fun a => decide (a.id = id)) = some adm)
    (hSt : adm.status = AdmissionStatus.PAYMENT_PENDING)
    (hNodup : (db.students.map Student.id).Nodup) :
    (∀ s1, db.semesters.find?
        (fun s => decide (s.courseId = adm.courseId ∧ s.number = 1)) = some s1 →
      db.studentSemesters.find?
        (fun ss => decide (ss.studentId = adm.studentId ∧ ss.semesterId = s1.id)) = none →
      db.studentSemesters.find?
        (fun ss => decide (ss.studentId = adm.studentId ∧ ss.status = SemStatus.ONGOING)) = none →
      ∃ db', updateAdmissionStatus db now userId id AdmissionStatus.CONFIRMED notes = .ok db' ∧
        db'.studentSemesters = db.studentSemesters ++
          [⟨adm.studentId, s1.id, SemStatus.ONGOING, false, now, none⟩] ∧
        ∀ s ∈ db'.students, s.id = adm.studentId → s.status = StudentStatus.ACTIVE) ∧
    (∀ s1, db.semesters.find?
        (fun s => decide (s.courseId = adm.courseId ∧ s.number = 1)) = some s1 →
      ¬(db.studentSemesters.find?
          (fun ss => decide (ss.studentId = adm.studentId ∧ ss.semesterId = s1.id)) = none ∧
        db.studentSemesters.find?
          (fun ss => decide (ss.studentId = adm.studentId ∧ ss.status = SemStatus.ONGOING)) = none) →
      ∃ db', updateAdmissionStatus db now userId id AdmissionStatus.CONFIRMED notes = .ok db' ∧
        db'.studentSemesters = db.studentSemesters) ∧
    (db.semesters.find?
        (fun s => decide (s.courseId = adm.courseId ∧ s.number = 1)) = none →
      ∃ db', updateAdmissionStatus db now userId id AdmissionStatus.CONFIRMED notes = .ok db' ∧
        db'.studentSemesters = db.studentSemesters) := by
  have hmem : AdmissionStatus.CONFIRMED ∈ validTransitions adm.status := by
    rw [hSt]; decide
  have hnc : adm.status ≠ AdmissionStatus.CANCELLED := by
    rw [hSt]; decide
  have hrun : updateAdmissionStatus db now userId id AdmissionStatus.CONFIRMED notes =
      .ok (confirmedCascade { db with
        admissions := db.admissions.map
          (fun a => if a.id = id then { a with status := AdmissionStatus.CONFIRMED } else a),
        admissionHistories := db.admissionHistories ++
          [⟨id, adm.status, AdmissionStatus.CONFIRMED, userId, notes⟩] } now adm) := by
    simp only [updateAdmissionStatus, hAdm, if_neg (not_not_intro hmem), if_neg hnc]
    rfl
  refine ⟨?_, ?_, ?_⟩
  · intro s1 hS1 hNoRow hNoOng
    refine ⟨_, hrun, ?_, ?_⟩
    · rw [confirmedCascade_create _ now adm s1 (by exact hS1) (by exact hNoRow) (by exact hNoOng)]
    · intro s hs hsid
      rw [confirmedCascade_students] at hs
      exact activateStudent_active _ adm (by exact hNodup) s hs hsid
  · intro s1 hS1 hcond
    refine ⟨_, hrun, ?_⟩
    rw [confirmedCascade_skip _ now adm s1 (by exact hS1) (by exact hcond)]
  · intro hS1
    refine ⟨_, hrun, ?_⟩
    rw [confirmedCascade_noSem1 _ now adm (by exact hS1)]

/-- Witness for the enrollment cascade: confirming the PAYMENT_PENDING
admission of a student with no prior rows creates exactly the semester-1
ONGOING StudentSemester. -/
theorem enrollment_cascade_on_confirmation_witness :
    (updateAdmissionStatus enrDb 7 9 5 AdmissionStatus.CONFIRMED none).map
      (fun db => db.studentSemesters) =
      .ok [⟨1, 1, SemStatus.ONGOING, false, 7, none⟩] := by
  obtain ⟨db', hrun, hsem, -⟩ := (enrollment_cascade_on_confirmation enrDb 7 9 5 none
    ⟨5, 1, 1, .PAYMENT_PENDING⟩ rfl rfl (by decide)).1 ⟨1, 1, 1⟩ rfl rfl rfl
  rw [hrun]
  dsimp only [Except.map]
  rw [hsem]
  rfl

/-- `find?` by a key predicate commutes with the row update of
`updateMatching`, because the update never changes a row's keys. -/
lemma updateMatching_find?_key (sid semId : Nat) (st : Option SemStatus)
    (fp : Option Bool) (l : List StudentSemester) (p : StudentSemester → Bool)
    (hp : ∀ ss, p (if ss.studentId = sid ∧ ss.semesterId = semId then setRow st fp ss else ss) = p ss) :
    (updateMatching sid semId st fp l).find? p =
      (l.find? p).map
        (fun ss => if ss.studentId = sid ∧ ss.semesterId = semId then setRow st fp ss else ss) := by
  unfold updateMatching
  rw [List.find?_map]
  have hfe : p ∘ (fun ss =>
      if ss.studentId = sid ∧ ss.semesterId = semId then setRow st fp ss else ss) = p :=
    funext hp
  rw [hfe]

/-- C4: the per-student completion cascade of the unit-level status
update. Setting an existing row to COMPLETED creates exactly one
StudentSemester(nextSemester, ONGOING, feePaid=false, startDate=now,
endDate=null) when a next semester (same course, number+1) exists and
the student has no row for it; is a no-op on StudentSemesters when such
a row exists; sets the student to PASSED_OUT (creating nothing) when no
next semester exists; and setting the row to FAILED triggers no
cascade. -/
theorem completion_cascade_unit (db : DB) (now studentId semesterId : Nat)
    (fp : Option Bool) (row : StudentSemester) (cur : Semester)
    (hRow : db.studentSemesters.find?
      (fun ss => decide (ss.studentId = studentId ∧ ss.semesterId = semesterId)) = some row)
    (hCur : db.semesters.find? (fun s => decide (s.id = semesterId)) = some cur) :
    (∀ next, db.semesters.find?
        (fun s => decide (s.courseId = cur.courseId ∧ s.number = cur.number + 1)) = some next →
      db.studentSemesters.find?
        (fun ss => decide (ss.studentId = studentId ∧ ss.semesterId = next.id)) = none →
      updateStudentSemesterStatus db now studentId semesterId (some SemStatus.COMPLETED) fp =
        .ok { db with studentSemesters :=
          updateMatching studentId semesterId (some SemStatus.COMPLETED) fp db.studentSemesters ++
            [⟨studentId, next.id, SemStatus.ONGOING, false, now, none⟩] }) ∧
    (∀ next r, db.semesters.find?
        (fun s => decide (s.courseId = cur.courseId ∧ s.number = cur.number + 1)) = some next →
      db.studentSemesters.find?
        (fun ss => decide (ss.studentId = studentId ∧ ss.semesterId = next.id)) = some r →
      updateStudentSemesterStatus db now studentId semesterId (some SemStatus.COMPLETED) fp =
        .ok { db with studentSemesters :=
          updateMatching studentId semesterId (some SemStatus.COMPLETED) fp db.studentSemesters }) ∧
    (db.semesters.find?
        (fun s => decide (s.courseId = cur.courseId ∧ s.number = cur.number + 1)) = none →
      updateStudentSemesterStatus db now studentId semesterId (some SemStatus.COMPLETED) fp =
        .ok { db with
          studentSemesters :=
            updateMatching studentId semesterId (some SemStatus.COMPLETED) fp db.studentSemesters,
          students := db.students.map (fun s =>
            if s.id = studentId then { s with status := StudentStatus.PASSED_OUT } else s) }) ∧
    (updateStudentSemesterStatus db now studentId semesterId (some SemStatus.FAILED) fp =
      .ok { db with studentSemesters :=
        updateMatching studentId semesterId (some SemStatus.FAILED) fp db.studentSemesters }) := by
  have hp : ∀ (k : Nat), ∀ ss : StudentSemester,
      (fun ss : StudentSemester => decide (ss.studentId = studentId ∧ ss.semesterId = k))
        (if ss.studentId = studentId ∧ ss.semesterId = semesterId
          then setRow (some SemStatus.COMPLETED) fp ss else ss) =
      decide (ss.studentId = studentId ∧ ss.semesterId = k) := by
    intro k ss
    by_cases hc : ss.studentId = studentId ∧ ss.semesterId = semesterId
    · simp [hc, setRow]
    · simp [hc]
  refine ⟨?_, ?_, ?_, ?_⟩
  · intro next hNext hNone
    have hupd : (updateMatching studentId semesterId (some SemStatus.COMPLETED) fp
        db.studentSemesters).find?
        (fun ss => decide (ss.studentId = studentId ∧ ss.semesterId = next.id)) = none := by
      rw [updateMatching_find?_key _ _ _ _ _ _ (hp next.id), hNone]
      rfl
    simp only [updateStudentSemesterStatus, hRow, hCur, hNext, hupd, if_pos rfl]
    rfl
  · intro next r hNext hSome
    have hupd : (updateMatching studentId semesterId (some SemStatus.COMPLETED) fp
        db.studentSemesters).find?
        (fun ss => decide (ss.studentId = studentId ∧ ss.semesterId = next.id)) =
        some (if r.studentId = studentId ∧ r.semesterId = semesterId
          then setRow (some SemStatus.COMPLETED) fp r else r) := by
      rw [updateMatching_find?_key _ _ _ _ _ _ (hp next.id), hSome]
      rfl
    simp only [updateStudentSemesterStatus, hRow, hCur, hNext, hupd, if_pos rfl]
    rfl
  · intro hNone
    simp only [updateStudentSemesterStatus, hRow, hCur, hNone, if_pos rfl]
    rfl
  · simp only [updateStudentSemesterStatus, hRow]
    rw [if_neg (by decide : ¬(some SemStatus.FAILED = some SemStatus.COMPLETED))]

/-- Witness for the completion cascade: promotion creates the next
semester row for student 1; it is a no-op for student 2 who already has
one; completing the last semester sets student 2 to PASSED_OUT; FAILED
triggers no cascade. -/
theorem completion_cascade_unit_witness :
    updateStudentSemesterStatus c4Db 5 1 1 (some SemStatus.COMPLETED) none =
      .ok { c4Db with studentSemesters :=
        [⟨1, 1, .COMPLETED, false, 0, none⟩, ⟨2, 1, .ONGOING, false, 0, none⟩,
         ⟨2, 2, .ONGOING, false, 0, none⟩, ⟨1, 2, .ONGOING, false, 5, none⟩] } ∧
    updateStudentSemesterStatus c4Db 5 2 1 (some SemStatus.COMPLETED) none =
      .ok { c4Db with studentSemesters :=
        [⟨1, 1, .ONGOING, false, 0, none⟩, ⟨2, 1, .COMPLETED, false, 0, none⟩,
         ⟨2, 2, .ONGOING, false, 0, none⟩] } ∧
    updateStudentSemesterStatus c4Db 5 2 2 (some SemStatus.COMPLETED) none =
      .ok { c4Db with
        studentSemesters :=
          [⟨1, 1, .ONGOING, false, 0, none⟩, ⟨2, 1, .ONGOING, false, 0, none⟩,
           ⟨2, 2, .COMPLETED, false, 0, none⟩],
        students := [⟨1, 1, 0, .ACTIVE⟩, ⟨2, 1, 0, .PASSED_OUT⟩] } ∧
    updateStudentSemesterStatus c4Db 5 1 1 (some SemStatus.FAILED) none =
      .ok { c4Db with studentSemesters :=
        [⟨1, 1, .FAILED, false, 0, none⟩, ⟨2, 1, .ONGOING, false, 0, none⟩,
         ⟨2, 2, .ONGOING, false, 0, none⟩] } := by
  refine ⟨?_, ?_, ?_, ?_⟩
  · exact (completion_cascade_unit c4Db 5 1 1 none ⟨1, 1, .ONGOING, false, 0, none⟩
      ⟨1, 1, 1⟩ rfl rfl).1 ⟨2, 1, 2⟩ rfl rfl
  · exact (completion_cascade_unit c4Db 5 2 1 none ⟨2, 1, .ONGOING, false, 0, none⟩
      ⟨1, 1, 1⟩ rfl rfl).2.1 ⟨2, 1, 2⟩ ⟨2, 2, .ONGOING, false, 0, none⟩ rfl rfl
  · exact (completion_cascade_unit c4Db 5 2 2 none ⟨2, 2, .ONGOING, false, 0, none⟩
      ⟨2, 1, 2⟩ rfl rfl).2.2.1 rfl
  · exact (completion_cascade_unit c4Db 5 1 1 none ⟨1, 1, .ONGOING, false, 0, none⟩
      ⟨1, 1, 1⟩ rfl rfl).2.2.2

lemma bulkPromoteStep_students (now nid : Nat) (acc : DB) (r : StudentSemester) :
    (bulkPromoteStep now nid acc r).students = acc.students := by
  unfold bulkPromoteStep
  split <;> rfl

lemma foldl_bulkPromoteStep_students (now nid : Nat) :
    ∀ (l : List StudentSemester) (acc : DB),
      (l.foldl (bulkPromoteStep now nid) acc).students = acc.students := by
  intro l
  induction l with
  | nil => intro acc; rfl
  | cons a t ih =>
    intro acc
    rw [List.foldl_cons, ih, bulkPromoteStep_students]

/-- The bulk status update never modifies any Student record: there is
no PASSED_OUT branch on the bulk path. -/
lemma bulkUpdate_students (db : DB) (now id : Nat) (ids : List Nat)
    (st : Option SemStatus) (fp : Option Bool) (db' : DB)
    (h : bulkUpdateStudentSemesterStatus db now id ids st fp = .ok db') :
    db'.students = db.students := by
  unfold bulkUpdateStudentSemesterStatus at h
  dsimp only at h
  repeat' split at h
  all_goals first
    | exact Except.noConfusion h
    | (injection h with h2; subst h2; rfl)
    | (injection h with h2; subst h2; rw [foldl_bulkPromoteStep_students]; try rfl)

/-- C5 (amended): for a student with exactly one StudentSemester row in
the semester, when the semester and a next semester (same course,
number+1) exist, the bulk status update over the singleton id list
produces exactly the state of the unit-level update (the promotion
cascades agree); but the bulk path never modifies any Student record, so
the PASSED_OUT effect of the unit-level update on final-semester
completion has no bulk counterpart. -/
theorem bulk_unit_cascade_equiv (db : DB) (now semId sid : Nat) (fp : Option Bool)
    (row : StudentSemester) (cur : Semester)
    (hFilter : db.studentSemesters.filter
      (fun ss => decide (ss.studentId = sid ∧ ss.semesterId = semId)) = [row])
    (hFind : db.studentSemesters.find?
      (fun ss => decide (ss.studentId = sid ∧ ss.semesterId = semId)) = some row)
    (hCur : db.semesters.find? (fun s => decide (s.id = semId)) = some cur) :
    (∀ next, db.semesters.find?
        (fun s => decide (s.courseId = cur.courseId ∧ s.number = cur.number + 1)) = some next →
      bulkUpdateStudentSemesterStatus db now semId [sid] (some SemStatus.COMPLETED) fp =
        updateStudentSemesterStatus db now sid semId (some SemStatus.COMPLETED) fp) ∧
    (∀ (ids : List Nat) (st : Option SemStatus) (fp2 : Option Bool) (db' : DB),
      bulkUpdateStudentSemesterStatus db now semId ids st fp2 = .ok db' →
      db'.students = db.students) := by
  refine ⟨?_, fun ids st fp2 db' h => bulkUpdate_students db now semId ids st fp2 db' h⟩
  intro next hNext
  have hrowmem : row ∈ db.studentSemesters.filter
      (fun ss => decide (ss.studentId = sid ∧ ss.semesterId = semId)) := by
    rw [hFilter]; exact List.mem_singleton_self row
  have hpair : row.studentId = sid ∧ row.semesterId = semId := by
    simpa using (List.mem_filter.mp hrowmem).2
  have hp2 : ∀ ss : StudentSemester,
      (fun ss : StudentSemester => decide (ss.studentId = sid ∧ ss.semesterId = semId))
        (if ss.studentId = sid ∧ ss.semesterId = semId
          then setRow (some SemStatus.COMPLETED) fp ss else ss) =
      decide (ss.studentId = sid ∧ ss.semesterId = semId) := by
    intro ss
    by_cases hc : ss.studentId = sid ∧ ss.semesterId = semId <;> simp [hc, setRow]
  have hmap : db.studentSemesters.map (fun ss =>
      if ss.studentId ∈ [sid] ∧ ss.semesterId = semId
        then setRow (some SemStatus.COMPLETED) fp ss else ss) =
      updateMatching sid semId (some SemStatus.COMPLETED) fp db.studentSemesters := by
    unfold updateMatching
    apply List.map_congr_left
    intro ss _
    simp only [List.mem_singleton]
  have hfilter2 : (updateMatching sid semId (some SemStatus.COMPLETED) fp
      db.studentSemesters).filter
      (fun ss => decide (ss.studentId ∈ [sid] ∧ ss.semesterId = semId)) =
      [setRow (some SemStatus.COMPLETED) fp row] := by
    have hcong : (updateMatching sid semId (some SemStatus.COMPLETED) fp
        db.studentSemesters).filter
        (fun ss => decide (ss.studentId ∈ [sid] ∧ ss.semesterId = semId)) =
        (updateMatching sid semId (some SemStatus.COMPLETED) fp db.studentSemesters).filter
        (fun ss => decide (ss.studentId = sid ∧ ss.semesterId = semId)) := by
      apply List.filter_congr
      intro ss _
      simp only [List.mem_singleton]
    rw [hcong]
    unfold updateMatching
    rw [List.filter_map]
    have hfe : (fun ss : StudentSemester => decide (ss.studentId = sid ∧ ss.semesterId = semId)) ∘
        (fun ss => if ss.studentId = sid ∧ ss.semesterId = semId
          then setRow (some SemStatus.COMPLETED) fp ss else ss) =
        (fun ss : StudentSemester => decide (ss.studentId = sid ∧ ss.semesterId = semId)) :=
      funext hp2
    rw [hfe, hFilter]
    simp [hpair.1, hpair.2]
  have hLHS : bulkUpdateStudentSemesterStatus db now semId [sid] (some SemStatus.COMPLETED) fp =
      .ok (List.foldl (bulkPromoteStep now next.id)
        { db with studentSemesters :=
            updateMatching sid semId (some SemStatus.COMPLETED) fp db.studentSemesters }
        [setRow (some SemStatus.COMPLETED) fp row]) := by
    simp only [bulkUpdateStudentSemesterStatus, List.isEmpty_cons, Bool.false_eq_true,
      if_false, hCur, hmap, hfilter2, hNext, if_pos rfl]
    rfl
  have hRHS : updateStudentSemesterStatus db now sid semId (some SemStatus.COMPLETED) fp =
      (match (updateMatching sid semId (some SemStatus.COMPLETED) fp
          db.studentSemesters).find?
          (fun ss => decide (ss.studentId = sid ∧ ss.semesterId = next.id)) with
        | some _ =>
          .ok (withSS db (updateMatching sid semId (some SemStatus.COMPLETED) fp db.studentSemesters))
        | none =>
          .ok (withSS db (updateMatching sid semId (some SemStatus.COMPLETED) fp db.studentSemesters ++
            [⟨sid, next.id, SemStatus.ONGOING, false, now, none⟩]))) := by
    simp only [updateStudentSemesterStatus, hFind, hCur, hNext, if_pos rfl]
    rfl
  rw [hLHS, hRHS, List.foldl_cons, List.foldl_nil]
  unfold bulkPromoteStep
  have hsid : (setRow (some SemStatus.COMPLETED) fp row).studentId = sid := hpair.1
  rw [hsid]
  cases hfind : (updateMatching sid semId (some SemStatus.COMPLETED) fp
      db.studentSemesters).find?
      (fun ss => decide (ss.studentId = sid ∧ ss.semesterId = next.id)) with
  | none => rfl
  | some r2 => rfl

/-- The auto-assignment code filters coincide with the spec-side
eligibility conditions. -/
lemma autoAssign_filters_iff (db : DB) (sem : Semester) (criteria : Option Criteria)
    (id : Nat) (st : Student) :
    (autoAssignBaseFilter db sem criteria st = true ∧
      autoAssignEligibleFilter db sem id st = true) ↔
    autoAssignSpecPred db sem criteria id st := by
  unfold autoAssignBaseFilter autoAssignEligibleFilter autoAssignSpecPred
  cases criteria with
  | none =>
    simp [List.any_eq_true, and_assoc]
  | some c =>
    cases hs : c.sessionId <;> cases hm : c.minSemesterNumber <;>
      simp [List.any_eq_true, hs, hm, and_assoc]

/-- C6: auto-assignment eligibility and effect. The operation succeeds,
appends one StudentSemester(status=ONGOING, feePaid=false, startDate=now,
endDate=now+6 months) per created row, and a student of the store gets a
new row exactly when they satisfy the eligibility conditions: in the
semester's course with status ACTIVE, meeting the optional sessionId /
minimum-completed-semester criteria, not already assigned to this
semester, holding no ONGOING row, and — when the semester number exceeds
1 — holding a COMPLETED row for the previous semester number. -/
theorem autoAssign_characterization (db : DB) (now id : Nat)
    (criteria : Option Criteria) (sem : Semester)
    (hSem : db.semesters.find? (fun s => decide (s.id = id)) = some sem)
    (hNodup : (db.students.map Student.id).Nodup) :
    ∃ db', autoAssignStudents db now id criteria = .ok db' ∧
      db'.studentSemesters = db.studentSemesters ++ autoAssignRows db sem criteria id now ∧
      (∀ st ∈ db.students,
        (∃ r ∈ autoAssignRows db sem criteria id now, r.studentId = st.id) ↔
          autoAssignSpecPred db sem criteria id st) ∧
      (∀ r ∈ autoAssignRows db sem criteria id now,
        r = ⟨r.studentId, id, SemStatus.ONGOING, false, now, some (addMonths now 6)⟩) := by
  have hrun : autoAssignStudents db now id criteria =
      .ok (withSS db (db.studentSemesters ++ autoAssignRows db sem criteria id now)) := by
    simp only [autoAssignStudents, hSem]
    rfl
  refine ⟨_, hrun, rfl, ?_, ?_⟩
  · intro st hst
    constructor
    · rintro ⟨r, hr, hrid⟩
      obtain ⟨st2, hst2, rfl⟩ := List.mem_map.mp hr
      have hst2mem : st2 ∈ db.students :=
        (List.mem_filter.mp (List.mem_filter.mp hst2).1).1
      have heq : st2 = st := List.inj_on_of_nodup_map hNodup hst2mem hst hrid
      subst heq
      exact (autoAssign_filters_iff db sem criteria id st2).mp
        ⟨(List.mem_filter.mp (List.mem_filter.mp hst2).1).2, (List.mem_filter.mp hst2).2⟩
    · intro hP
      have hb := (autoAssign_filters_iff db sem criteria id st).mpr hP
      exact ⟨⟨st.id, id, SemStatus.ONGOING, false, now, some (addMonths now 6)⟩,
        List.mem_map_of_mem _
          (List.mem_filter.mpr ⟨List.mem_filter.mpr ⟨hst, hb.1⟩, hb.2⟩), rfl⟩
  · intro r hr
    obtain ⟨st2, _, rfl⟩ := List.mem_map.mp hr
    rfl

/-- Witness for the auto-assignment characterization at a concrete
store. -/
theorem autoAssign_characterization_witness :
    (autoAssignStudents c6Db 3 2 none).isOk = true := by
  obtain ⟨db', hrun, -, -, -⟩ :=
    autoAssign_characterization c6Db 3 2 none ⟨2, 1, 2⟩ rfl (by decide)
  rw [hrun]
  rfl

/-- Witness for the amended bulk/unit equivalence: on a semester with a
successor the two paths agree exactly, and the bulk path leaves the
student table unchanged. -/
theorem bulk_unit_cascade_equiv_witness :
    bulkUpdateStudentSemesterStatus c5Db 9 1 [1] (some SemStatus.COMPLETED) none =
      updateStudentSemesterStatus c5Db 9 1 1 (some SemStatus.COMPLETED) none ∧
    c5After.students = c5Db.students := by
  constructor
  · exact (bulk_unit_cascade_equiv c5Db 9 1 1 none ⟨1, 1, .ONGOING, false, 0, none⟩
      ⟨1, 1, 1⟩ rfl rfl rfl).1 ⟨2, 1, 2⟩ rfl
  · exact (bulk_unit_cascade_equiv c5Db 9 1 1 none ⟨1, 1, .ONGOING, false, 0, none⟩
      ⟨1, 1, 1⟩ rfl rfl rfl).2 [1] (some SemStatus.COMPLETED) none c5After rfl

/-- C7 (amended): subject selection requires only that the StudentSemester
row for (studentId, semesterId) exists — its status is not examined.
When the row is absent the operation fails with the not-enrolled error
and creates nothing; when it exists with ANY status (and the remaining
checks pass, here stated for a non-exclusive subject type) the
StudentSubject row is created. -/
theorem subject_selection_requires_enrollment (db : DB) (actorRole : Role)
    (actorId studentId subjectId semesterId : Nat)
    (student : Student) (subject : Subject) (semester : Semester)
    (hRole : ¬(actorRole = Role.STUDENT ∧ actorId ≠ studentId))
    (hStu : db.students.find? (fun s => decide (s.id = studentId)) = some student)
    (hSub : db.subjects.find? (fun s => decide (s.id = subjectId)) = some subject)
    (hSem : db.semesters.find? (fun s => decide (s.id = semesterId)) = some semester)
    (hAlign : subject.semesterId = semesterId)
    (hCourse : semester.courseId = student.courseId) :
    (db.studentSemesters.find?
        (fun ss => decide (ss.studentId = studentId ∧ ss.semesterId = semesterId)) = none →
      createStudentSubject db actorRole actorId studentId subjectId semesterId =
        .error ⟨"Student is not enrolled in this semester", 400⟩) ∧
    (∀ row, db.studentSemesters.find?
        (fun ss => decide (ss.studentId = studentId ∧ ss.semesterId = semesterId)) = some row →
      db.studentSubjects.find? (fun r => decide (r.studentId = studentId ∧
        r.subjectId = subjectId ∧ r.semesterId = semesterId)) = none →
      (subject.type = SubjectType.SEC ∨ subject.type = SubjectType.VAC) →
      createStudentSubject db actorRole actorId studentId subjectId semesterId =
        .ok { db with studentSubjects := db.studentSubjects ++
          [⟨studentId, subjectId, semesterId⟩] }) := by
  have hAlign2 : ¬(subject.semesterId ≠ semesterId) := not_not_intro hAlign
  have hCourse2 : ¬(semester.courseId ≠ student.courseId) := not_not_intro hCourse
  constructor
  · intro hNone
    simp only [createStudentSubject, if_neg hRole, hStu, hSub, hSem, if_neg hAlign2,
      if_neg hCourse2, hNone]
  · intro row hRow hNoDup htype
    have hNotExcl : ¬(subject.type = SubjectType.MJC ∨ subject.type = SubjectType.MIC ∨
        subject.type = SubjectType.MDC) := by
      rcases htype with h | h <;> rw [h] <;> decide
    simp only [createStudentSubject, if_neg hRole, hStu, hSub, hSem, if_neg hAlign2,
      if_neg hCourse2, hRow, hNoDup, if_neg hNotExcl]

/-- Witness for the amended subject-selection contract: assigning in the
unenrolled semester 2 fails with not-enrolled; assigning in semester 1
succeeds although that enrollment is COMPLETED, not ONGOING. -/
theorem subject_selection_requires_enrollment_witness :
    createStudentSubject c7Db Role.ADMIN 9 1 4 2 =
      .error ⟨"Student is not enrolled in this semester", 400⟩ ∧
    createStudentSubject c7Db Role.ADMIN 9 1 3 1 =
      .ok { c7Db with studentSubjects := [⟨1, 3, 1⟩] } := by
  constructor
  · exact (subject_selection_requires_enrollment c7Db Role.ADMIN 9 1 4 2
      ⟨1, 1, 0, .ACTIVE⟩ ⟨4, 2, .SEC⟩ ⟨2, 1, 2⟩ (by decide) rfl rfl rfl rfl rfl).1 rfl
  · exact (subject_selection_requires_enrollment c7Db Role.ADMIN 9 1 3 1
      ⟨1, 1, 0, .ACTIVE⟩ ⟨3, 1, .SEC⟩ ⟨1, 1, 1⟩ (by decide) rfl rfl rfl rfl rfl).2
      ⟨1, 1, .COMPLETED, false, 0, none⟩ rfl rfl (Or.inl rfl)

/-- C8: the exclusive-type check of single subject assignment. For a
subject of type MJC, MIC or MDC, if the student already holds a
StudentSubject of the same type in this semester, the operation fails
with the exclusive-type-conflict error (and, the result being an error,
no row is created); for SEC and VAC the same-type check is not applied —
the assignment succeeds even though a same-type row already exists. -/
theorem exclusive_type_conflict (db : DB) (actorRole : Role)
    (actorId studentId subjectId semesterId : Nat)
    (student : Student) (subject : Subject) (semester : Semester)
    (row : StudentSemester)
    (hRole : ¬(actorRole = Role.STUDENT ∧ actorId ≠ studentId))
    (hStu : db.students.find? (fun s => decide (s.id = studentId)) = some student)
    (hSub : db.subjects.find? (fun s => decide (s.id = subjectId)) = some subject)
    (hSem : db.semesters.find? (fun s => decide (s.id = semesterId)) = some semester)
    (hAlign : subject.semesterId = semesterId)
    (hCourse : semester.courseId = student.courseId)
    (hRow : db.studentSemesters.find?
      (fun ss => decide (ss.studentId = studentId ∧ ss.semesterId = semesterId)) = some row)
    (hNoDup : db.studentSubjects.find? (fun r => decide (r.studentId = studentId ∧
      r.subjectId = subjectId ∧ r.semesterId = semesterId)) = none) :
    (∀ r, (subject.type = SubjectType.MJC ∨ subject.type = SubjectType.MIC ∨
        subject.type = SubjectType.MDC) →
      db.studentSubjects.find? (fun r0 =>
        decide (r0.studentId = studentId ∧ r0.semesterId = semesterId) &&
        db.subjects.any (fun sub => decide (sub.id = r0.subjectId ∧ sub.type = subject.type))) =
        some r →
      createStudentSubject db actorRole actorId studentId subjectId semesterId =
        .error ⟨"Student has already selected a " ++ typeName subject.type
          ++ " subject in this semester", 400⟩) ∧
    (∀ r, (subject.type = SubjectType.SEC ∨ subject.type = SubjectType.VAC) →
      db.studentSubjects.find? (fun r0 =>
        decide (r0.studentId = studentId ∧ r0.semesterId = semesterId) &&
        db.subjects.any (fun sub => decide (sub.id = r0.subjectId ∧ sub.type = subject.type))) =
        some r →
      createStudentSubject db actorRole actorId studentId subjectId semesterId =
        .ok { db with studentSubjects := db.studentSubjects ++
          [⟨studentId, subjectId, semesterId⟩] }) := by
  have hAlign2 : ¬(subject.semesterId ≠ semesterId) := not_not_intro hAlign
  have hCourse2 : ¬(semester.courseId ≠ student.courseId) := not_not_intro hCourse
  constructor
  · intro r hexcl hSame
    simp only [createStudentSubject, if_neg hRole, hStu, hSub, hSem, if_neg hAlign2,
      if_neg hCourse2, hRow, hNoDup, if_pos hexcl, hSame]
  · intro r htype hSame
    have hNotExcl : ¬(subject.type = SubjectType.MJC ∨ subject.type = SubjectType.MIC ∨
        subject.type = SubjectType.MDC) := by
      rcases htype with h | h <;> rw [h] <;> decide
    simp only [createStudentSubject, if_neg hRole, hStu, hSub, hSem, if_neg hAlign2,
      if_neg hCourse2, hRow, hNoDup, if_neg hNotExcl]

/-- Witness: a second MJC pick fails with the exclusive-type conflict,
while a second SEC pick succeeds. -/
theorem exclusive_type_conflict_witness :
    createStudentSubject c8Db Role.ADMIN 9 1 11 1 =
      .error ⟨"Student has already selected a MJC subject in this semester", 400⟩ ∧
    createStudentSubject c8Db Role.ADMIN 9 1 13 1 =
      .ok { c8Db with studentSubjects := [⟨1, 10, 1⟩, ⟨1, 12, 1⟩, ⟨1, 13, 1⟩] } := by
  constructor
  · exact (exclusive_type_conflict c8Db Role.ADMIN 9 1 11 1 ⟨1, 1, 0, .ACTIVE⟩
      ⟨11, 1, .MJC⟩ ⟨1, 1, 1⟩ ⟨1, 1, .ONGOING, false, 0, none⟩
      (by decide) rfl rfl rfl rfl rfl rfl rfl).1 ⟨1, 10, 1⟩ (Or.inl rfl) rfl
  · exact (exclusive_type_conflict c8Db Role.ADMIN 9 1 13 1 ⟨1, 1, 0, .ACTIVE⟩
      ⟨13, 1, .SEC⟩ ⟨1, 1, 1⟩ ⟨1, 1, .ONGOING, false, 0, none⟩
      (by decide) rfl rfl rfl rfl rfl rfl rfl).2 ⟨1, 12, 1⟩ (Or.inl rfl) rfl

/-- Everything a successful `bulkAssignSubjects` run certifies: the
resolved-subject count matches the request, no exclusive type occurs
twice in the batch, no requested row pre-exists, and the result appends
exactly one row per requested subject id. -/
lemma bulkAssign_ok_implies (db : DB) (studentId semesterId : Nat)
    (subjectIds : List Nat) (db' : DB)
    (h : bulkAssignSubjects db studentId semesterId subjectIds = .ok db') :
    (db.subjects.filter
      (fun s => decide (s.id ∈ subjectIds ∧ s.semesterId = semesterId))).length =
      subjectIds.length ∧
    ¬((((db.subjects.filter
          (fun s => decide (s.id ∈ subjectIds ∧ s.semesterId = semesterId))).map
          Subject.type).filter (fun t => decide (t = SubjectType.MJC))).length > 1 ∨
      (((db.subjects.filter
          (fun s => decide (s.id ∈ subjectIds ∧ s.semesterId = semesterId))).map
          Subject.type).filter (fun t => decide (t = SubjectType.MIC))).length > 1 ∨
      (((db.subjects.filter
          (fun s => decide (s.id ∈ subjectIds ∧ s.semesterId = semesterId))).map
          Subject.type).filter (fun t => decide (t = SubjectType.MDC))).length > 1) ∧
    db.studentSubjects.filter (fun r => decide (r.studentId = studentId ∧
      r.semesterId = semesterId ∧ r.subjectId ∈ subjectIds)) = [] ∧
    db'.studentSubjects = db.studentSubjects ++
      subjectIds.map (fun sid => ⟨studentId, sid, semesterId⟩) := by
  unfold bulkAssignSubjects at h
  dsimp only at h
  split at h
  · exact Except.noConfusion h
  split at h
  · exact Except.noConfusion h
  split at h
  · exact Except.noConfusion h
  split at h
  · exact Except.noConfusion h
  split at h
  · exact Except.noConfusion h
  rename_i hlen
  split at h
  · exact Except.noConfusion h
  rename_i hcnt
  split at h
  · exact Except.noConfusion h
  rename_i hex
  injection h with h2
  subst h2
  refine ⟨not_not.mp hlen, hcnt, ?_, rfl⟩
  exact List.length_eq_zero.mp (Nat.eq_zero_of_not_pos hex)

/-- C9: bulk subject assignment is all-or-nothing. If the subject ids do
not all resolve within the semester, or the batch contains an exclusive
type (MJC, MIC, MDC) more than once, or any requested row already
exists, the call returns an error — and an error creates nothing; on
success every requested row is appended as one batch. -/
theorem bulkAssign_all_or_nothing (db : DB) (studentId semesterId : Nat)
    (subjectIds : List Nat) :
    ((db.subjects.filter
        (fun s => decide (s.id ∈ subjectIds ∧ s.semesterId = semesterId))).length ≠
        subjectIds.length →
      ∃ e, bulkAssignSubjects db studentId semesterId subjectIds = .error e) ∧
    (((((db.subjects.filter
          (fun s => decide (s.id ∈ subjectIds ∧ s.semesterId = semesterId))).map
          Subject.type).filter (fun t => decide (t = SubjectType.MJC))).length > 1 ∨
      (((db.subjects.filter
          (fun s => decide (s.id ∈ subjectIds ∧ s.semesterId = semesterId))).map
          Subject.type).filter (fun t => decide (t = SubjectType.MIC))).length > 1 ∨
      (((db.subjects.filter
          (fun s => decide (s.id ∈ subjectIds ∧ s.semesterId = semesterId))).map
          Subject.type).filter (fun t => decide (t = SubjectType.MDC))).length > 1) →
      ∃ e, bulkAssignSubjects db studentId semesterId subjectIds = .error e) ∧
    (db.studentSubjects.filter (fun r => decide (r.studentId = studentId ∧
        r.semesterId = semesterId ∧ r.subjectId ∈ subjectIds)) ≠ [] →
      ∃ e, bulkAssignSubjects db studentId semesterId subjectIds = .error e) ∧
    (∀ db', bulkAssignSubjects db studentId semesterId subjectIds = .ok db' →
      db'.studentSubjects = db.studentSubjects ++
        subjectIds.map (fun sid => ⟨studentId, sid, semesterId⟩)) := by
  refine ⟨?_, ?_, ?_, ?_⟩
  · intro hbad
    cases hres : bulkAssignSubjects db studentId semesterId subjectIds with
    | error e => exact ⟨e, rfl⟩
    | ok db' =>
      exact absurd (bulkAssign_ok_implies db studentId semesterId subjectIds db' hres).1 hbad
  · intro hbad
    cases hres : bulkAssignSubjects db studentId semesterId subjectIds with
    | error e => exact ⟨e, rfl⟩
    | ok db' =>
      exact absurd hbad (bulkAssign_ok_implies db studentId semesterId subjectIds db' hres).2.1
  · intro hbad
    cases hres : bulkAssignSubjects db studentId semesterId subjectIds with
    | error e => exact ⟨e, rfl⟩
    | ok db' =>
      exact absurd (bulkAssign_ok_implies db studentId semesterId subjectIds db' hres).2.2.1 hbad
  · intro db' hres
    exact (bulkAssign_ok_implies db studentId semesterId subjectIds db' hres).2.2.2

/-- Witness for all-or-nothing bulk assignment: an unresolvable id, a
double-MJC batch and a pre-existing row each fail; a clean batch
appends its rows. -/
theorem bulkAssign_all_or_nothing_witness :
    (bulkAssignSubjects c9Db 1 1 [10, 99]).isOk = false ∧
    (bulkAssignSubjects c9Db 1 1 [10, 11]).isOk = false ∧
    (bulkAssignSubjects c9Db 1 1 [12]).isOk = false ∧
    c9After.studentSubjects = c9Db.studentSubjects ++
      [13].map (fun sid => ⟨1, sid, 1⟩) := by
  refine ⟨?_, ?_, ?_, ?_⟩
  · obtain ⟨e, he⟩ := (bulkAssign_all_or_nothing c9Db 1 1 [10, 99]).1 (by decide)
    rw [he]
    rfl
  · obtain ⟨e, he⟩ := (bulkAssign_all_or_nothing c9Db 1 1 [10, 11]).2.1 (by decide)
    rw [he]
    rfl
  · obtain ⟨e, he⟩ := (bulkAssign_all_or_nothing c9Db 1 1 [12]).2.2.1 (by decide)
    rw [he]
    rfl
  · exact (bulkAssign_all_or_nothing c9Db 1 1 [13]).2.2.2 c9After rfl

/-- C10: a duplicate subject id in the request makes `bulkAssignSubjects`
fail before any creation, even when every listed subject exists and
belongs to the semester — the existence check compares the count of
distinct matching subjects against the raw array length, and a duplicate
forces those to differ (given globally unique subject ids). -/
theorem bulkAssign_duplicate_ids_fail (db : DB) (studentId semesterId : Nat)
    (subjectIds : List Nat)
    (hdup : ¬ subjectIds.Nodup)
    (hids : (db.subjects.map Subject.id).Nodup) :
    ∃ e, bulkAssignSubjects db studentId semesterId subjectIds = .error e := by
  cases hres : bulkAssignSubjects db studentId semesterId subjectIds with
  | error e => exact ⟨e, rfl⟩
  | ok db' =>
    exfalso
    have hlen := (bulkAssign_ok_implies db studentId semesterId subjectIds db' hres).1
    set F := db.subjects.filter
      (fun s => decide (s.id ∈ subjectIds ∧ s.semesterId = semesterId)) with hF
    have hndF : (F.map Subject.id).Nodup :=
      ((List.filter_sublist db.subjects).map Subject.id).nodup hids
    have hsubset : (F.map Subject.id).toFinset ⊆ subjectIds.toFinset := by
      intro x hx
      rw [List.mem_toFinset] at hx ⊢
      obtain ⟨s, hs, rfl⟩ := List.mem_map.mp hx
      have hp := (List.mem_filter.mp hs).2
      simp only [decide_eq_true_eq] at hp
      exact hp.1
    have hlt : subjectIds.toFinset.card < subjectIds.length := by
      refine lt_of_le_of_ne (List.toFinset_card_le subjectIds) ?_
      intro he
      exact hdup (by
        have := Multiset.toFinset_card_eq_card_iff_nodup.mp (by simpa using he)
        simpa using this)
    have hchain : F.length ≤ subjectIds.toFinset.card := by
      calc F.length = (F.map Subject.id).length := (List.length_map F Subject.id).symm
        _ = (F.map Subject.id).toFinset.card := (List.toFinset_card_of_nodup hndF).symm
        _ ≤ subjectIds.toFinset.card := Finset.card_le_card hsubset
    omega

/-- Witness: requesting subject 12 twice fails even though subject 12
exists and belongs to the semester. -/
theorem bulkAssign_duplicate_ids_fail_witness :
    (bulkAssignSubjects c10Db 1 1 [12, 12]).isOk = false := by
  obtain ⟨e, he⟩ := bulkAssign_duplicate_ids_fail c10Db 1 1 [12, 12]
    (by decide) (by decide)
  rw [he]
  rfl

/-- Witness for the admission transition contract: a missing id fails
with not-found, INITIATED → CONFIRMED fails with invalid-transition,
PAYMENT_PENDING → INITIATED fails with invalid-transition, and
PAYMENT_PENDING → CONFIRMED succeeds. -/
theorem admission_transition_contract_witness :
    updateAdmissionStatus admDb 0 9 7 AdmissionStatus.CONFIRMED none =
      Except.error ⟨"Admission not found", 404⟩ ∧
    updateAdmissionStatus admDb 0 9 5 AdmissionStatus.CONFIRMED none =
      Except.error ⟨"Invalid status transition from INITIATED to CONFIRMED", 400⟩ ∧
    updateAdmissionStatus admDb 0 9 6 AdmissionStatus.INITIATED none =
      Except.error ⟨"Invalid status transition from PAYMENT_PENDING to INITIATED", 400⟩ ∧
    (updateAdmissionStatus admDb 0 9 6 AdmissionStatus.CONFIRMED none).isOk = true := by
  refine ⟨(admission_transition_contract admDb 0 9 7 AdmissionStatus.CONFIRMED none).1 rfl,
    (admission_transition_contract admDb 0 9 5 AdmissionStatus.CONFIRMED none).2.2.1
      ⟨5, 1, 1, .INITIATED⟩ rfl rfl rfl,
    (admission_transition_contract admDb 0 9 6 AdmissionStatus.INITIATED none).2.1
      ⟨6, 1, 1, .PAYMENT_PENDING⟩ rfl (by decide), ?_⟩
  obtain ⟨db', heq, -, -⟩ :=
    (admission_transition_contract admDb 0 9 6 AdmissionStatus.CONFIRMED none).2.2.2
      ⟨6, 1, 1, .PAYMENT_PENDING⟩ rfl (by decide)
  rw [heq]
  rfl

/-! ### Concrete stores for the refuting / failing-input theorems -/

/-- C1: the single-ongoing-semester invariant is NOT preserved by the
lifecycle core: starting from a store where student 1 already has an
ONGOING StudentSemester (semester 1, start date 0), the direct semester
assignment of semester 2 with a later start date (5) succeeds — the
guard only rejects start dates ≤ the ongoing row's — and the resulting
store holds two ONGOING rows for student 1. -/
theorem single_ongoing_invariant_broken_by_assignSemester :
    assignSemester assignDb 1 2 5 none = Except.ok { assignDb with studentSemesters :=
      [⟨1, 1, SemStatus.ONGOING, false, 0, none⟩,
       ⟨1, 2, SemStatus.ONGOING, false, 5, none⟩] } ∧
    (([⟨1, 1, SemStatus.ONGOING, false, 0, none⟩,
       (⟨1, 2, SemStatus.ONGOING, false, 5, none⟩ : StudentSemester)].filter
        (fun ss => decide (ss.studentId = 1 ∧ ss.status = SemStatus.ONGOING))).length = 2) :=
  ⟨rfl, rfl⟩

/-- C5 counterexample: completing the final semester of a course via the
bulk status update does NOT produce the state the unit-level update
produces — the unit path sets the student's status to PASSED_OUT, the
bulk path leaves it ACTIVE, so the two resulting states differ. -/
theorem bulk_unit_divergence_final_semester :
    updateStudentSemesterStatus bulkDb 10 1 1 (some SemStatus.COMPLETED) none =
      Except.ok bulkDbUnit ∧
    bulkUpdateStudentSemesterStatus bulkDb 10 1 [1] (some SemStatus.COMPLETED) none =
      Except.ok bulkDbBulk ∧
    bulkDbUnit ≠ bulkDbBulk := by
  refine ⟨rfl, rfl, by decide⟩

/-- C7 counterexample: subject selection succeeds although the student's
StudentSemester for the semester has status COMPLETED, not ONGOING — the
operation only checks that the enrollment row exists, so a StudentSubject
row is created from a non-ONGOING enrollment. -/
theorem createStudentSubject_completed_enrollment_succeeds :
    subjDb.studentSemesters.find?
        (fun ss => decide (ss.studentId = 1 ∧ ss.semesterId = 1)) =
      some ⟨1, 1, SemStatus.COMPLETED, false, 0, none⟩ ∧
    createStudentSubject subjDb Role.ADMIN 9 1 1 1 =
      Except.ok { subjDb with studentSubjects := [⟨1, 1, 1⟩] } :=
  ⟨rfl, rfl⟩

end CMS
